import Mathlib

/-!
Shallow embedding of the kinto-http.rs client core: the JSON value model of
the json crate as the code uses it, the request builder and dispatcher of
src/request.rs, and the resource types and response hydration of
src/bucket.rs, src/collection.rs and src/record.rs.  Components of the
repository that are not under src/ (the client handle of lib.rs, the path
builder of paths.rs, the helpers of utils.rs) are modelled from the spec and
say so in their doc comments.
-/

/-- JSON values as the json crate exposes them to this code.  Numbers are
modelled as integers, which covers every numeric value the client reads or
writes (timestamps, status-like fields); the Short/String distinction of the
json crate is invisible to the code and collapsed into one string case. -/
inductive JsonValue where
  | null
  | bool (b : Bool)
  | num (n : Int)
  | str (s : String)
  | arr (items : List JsonValue)
  | obj (fields : List (String × JsonValue))

/-- Lookup of a key in an object's field list; a missing key reads as JSON
null, as the Index impl of the json crate does. -/
def lookupField : List (String × JsonValue) → String → JsonValue
  | [], _ => .null
  | (k, v) :: rest, key => if k = key then v else lookupField rest key

/-- Indexing a JSON value with a string key: member access on objects, JSON
null on everything else (json crate Index semantics). -/
def JsonValue.index (j : JsonValue) (key : String) : JsonValue :=
  match j with
  | .obj fields => lookupField fields key
  | _ => .null

/-- Insert or replace a key in an object's field list (IndexMut-assignment
semantics of the json crate). -/
def insertField : List (String × JsonValue) → String → JsonValue → List (String × JsonValue)
  | [], key, v => [(key, v)]
  | (k, w) :: rest, key, v =>
    if k = key then (key, v) :: rest else (k, w) :: insertField rest key v

/-- Assignment through a string index, `j[key] = v` of the json crate: on an
object it inserts or replaces the entry; on any other value the target is
replaced by a fresh object holding the single entry. -/
def JsonValue.setIndex (j : JsonValue) (key : String) (v : JsonValue) : JsonValue :=
  match j with
  | .obj fields => .obj (insertField fields key v)
  | _ => .obj [(key, v)]

/-- The empty JSON object, `JsonValue::new_object()`. -/
def JsonValue.new_object : JsonValue := .obj []

/-- `as_str()` of the json crate: the string content of a string value. -/
def JsonValue.as_str : JsonValue → Option String
  | .str s => some s
  | _ => none

/-- `as_u64()` of the json crate: a non-negative integral number as a
natural number, `none` on everything else. -/
def JsonValue.as_u64 : JsonValue → Option Nat
  | .num n => if 0 ≤ n then some n.toNat else none
  | _ => none

/-- String escaping used by the json crate serializer, restricted to the
quote and backslash cases; finer control-character escaping never matters to
this client. -/
def escapeJsonChar (c : Char) : String :=
  if c = '"' ∨ c = '\\' then String.mk ['\\', c] else String.singleton c

/-- Escape every character of a string for serialization. -/
def escapeJsonString (s : String) : String :=
  s.data.foldl (fun acc c => acc ++ escapeJsonChar c) ""

mutual

/-- `dump()` of the json crate: serialize a value to JSON text. -/
def JsonValue.dump : JsonValue → String
  | .null => "null"
  | .bool true => "true"
  | .bool false => "false"
  | .num n => toString n
  | .str s => "\"" ++ escapeJsonString s ++ "\""
  | .arr items => "[" ++ dumpItems items ++ "]"
  | .obj fields => "\x7b" ++ dumpFields fields ++ "\x7d"

/-- Comma-separated serialization of array items. -/
def dumpItems : List JsonValue → String
  | [] => ""
  | [x] => x.dump
  | x :: rest => x.dump ++ "," ++ dumpItems rest

/-- Comma-separated serialization of object entries. -/
def dumpFields : List (String × JsonValue) → String
  | [] => ""
  | [(k, v)] => "\"" ++ escapeJsonString k ++ "\":" ++ v.dump
  | (k, v) :: rest =>
    "\"" ++ escapeJsonString k ++ "\":" ++ v.dump ++ "," ++ dumpFields rest

end

/-- Display (`to_string()`) of the json crate: strings print raw (without
quotes), null prints as the text null, booleans and numbers print their
value, and containers fall back to `dump()`. -/
def JsonValue.display : JsonValue → String
  | .null => "null"
  | .bool true => "true"
  | .bool false => "false"
  | .num n => toString n
  | .str s => s
  | .arr items => JsonValue.dump (.arr items)
  | .obj fields => JsonValue.dump (.obj fields)

/-- A header as the dispatcher manipulates it: a name/value pair.  hyper's
typed header container keys headers by name, with `set` replacing a header
of the same name. -/
abbrev Header := String × String

/-- `Headers::set` of hyper: replace the header of the same name, or append
the header when none exists. -/
def headersSet : List Header → Header → List Header
  | [], h => [h]
  | (n, v) :: rest, h => if n = h.1 then h :: rest else (n, v) :: headersSet rest h

/-- Read a header's value by name. -/
def headersGet : List Header → String → Option String
  | [], _ => none
  | (n, v) :: rest, key => if n = key then some v else headersGet rest key

/-- Modelled from the spec: the client handle of lib.rs, which is not under
src/.  "The client handle (base URL + credentials) is immutable
configuration"; authentication is "one opaque header/value pair supplied by
the client handle". -/
structure KintoClient where
  server_url : String
  auth : Option Header

/-- HTTP methods the request structs of src/request.rs use. -/
inductive Method where
  | get
  | post
  | put
  | patch
  | delete
deriving DecidableEq

/-- `RequestPreparer` of src/request.rs: method, path, headers, query and
optional JSON body accumulated before dispatch. -/
structure RequestPreparer where
  client : KintoClient
  method : Method
  path : String
  headers : List Header
  query : String
  body : Option JsonValue

/-- `RequestPreparer::new`: GET with empty headers, query and body. -/
def RequestPreparer.new (client : KintoClient) (path : String) : RequestPreparer :=
  { client := client, method := .get, path := path,
    headers := [], query := "", body := none }

/-- Error kinds as the code under src/ constructs them (error.rs declaring
the enum is not under src/; these are exactly the variants the dispatcher
and its callers build). -/
inductive KintoError where
  | HyperError
  | NotModified
  | PreconditionError
  | JsonError
deriving DecidableEq

/-- The outcome of the blocking hyper call as far as `send` inspects it:
status, headers, and the JSON parse of the body text (`none` models body
text that is not valid JSON; the JSON text decoder itself is an excluded
collaborator).  A transport failure is the absence of any response and is
modelled by `Option` at the dispatch site. -/
structure HttpResponse where
  status : Nat
  headers : List Header
  json : Option JsonValue

/-- `ResponseWrapper` as built in src/request.rs lines 112-118: originating
client, the request path that produced it, HTTP status, headers and parsed
JSON body. -/
structure ResponseWrapper where
  client : KintoClient
  path : String
  status : Nat
  headers : List Header
  json : JsonValue

/-- The headers the dispatcher actually sends (src/request.rs lines 64-70):
a copy of the request-specific headers, then `headers.set(auth)` for the
client-level authentication header when present. -/
def sentHeaders (p : RequestPreparer) : List Header :=
  match p.client.auth with
  | some method => headersSet p.headers method
  | none => p.headers

/-- The body text the dispatcher sends: the serialized JSON body, or the
empty string when no body is set (src/request.rs lines 72-75). -/
def sentPayload (p : RequestPreparer) : String :=
  match p.body with
  | some data => data.dump
  | none => ""

/-- `StatusCode::is_success` of hyper: the 2xx class. -/
def statusIsSuccess (s : Nat) : Bool := 200 ≤ s && s < 300

/-- `KintoRequest::send` of src/request.rs from the HTTP call onward
(lines 84-121): a transport failure becomes `HyperError`; then status 304
becomes `NotModified` and 412 `PreconditionError`; any other non-2xx
becomes `HyperError`; on 2xx the body is parsed, a parse failure becomes
`JsonError` and a parse success the response envelope. -/
def KintoRequest.send (p : RequestPreparer) (response : Option HttpResponse) :
    Except KintoError ResponseWrapper :=
  match response with
  | none => .error .HyperError
  | some r =>
    if r.status = 304 then .error .NotModified
    else if r.status = 412 then .error .PreconditionError
    else if ¬ statusIsSuccess r.status then .error .HyperError
    else
      match r.json with
      | none => .error .JsonError
      | some payload =>
        .ok { client := p.client, path := p.path, status := r.status,
              headers := r.headers, json := payload }

/-- `PayloadedEndpoint::data` of src/request.rs lines 127-144: a no-op on an
absent value; otherwise the existing body (or a fresh object) receives the
value under key data. -/
def PayloadedEndpoint.data (p : RequestPreparer) (data : Option JsonValue) :
    RequestPreparer :=
  match data with
  | none => p
  | some d =>
    let body := match p.body with
      | some body => body
      | none => JsonValue.new_object
    { p with body := some (body.setIndex "data" d) }

/-- `PayloadedEndpoint::permissions` of src/request.rs lines 146-161:
symmetric to the data setter, under key permissions. -/
def PayloadedEndpoint.permissions (p : RequestPreparer) (permissions : Option JsonValue) :
    RequestPreparer :=
  match permissions with
  | none => p
  | some perms =>
    let body := match p.body with
      | some body => body
      | none => JsonValue.new_object
    { p with body := some (body.setIndex "permissions" perms) }

/-- Modelled from the spec: the path builder of paths.rs, which is not under
src/.  Spec 4.1 gives the canonical templates; this is the
collection-records-list shape, /buckets/{b}/collections/{c}/records, the one
the request constructors of src/collection.rs feed with the ancestor ids. -/
def Paths.records (b c : String) : String :=
  "/buckets/" ++ b ++ "/collections/" ++ c ++ "/records"

/-- Modelled from the spec: the bucket-collections-list template
/buckets/{b}/collections of spec 4.1. -/
def Paths.collections (b : String) : String :=
  "/buckets/" ++ b ++ "/collections"

/-- Modelled from the spec: the singular collection template
/buckets/{b}/collections/{c} of spec 4.1. -/
def Paths.collection (b c : String) : String :=
  "/buckets/" ++ b ++ "/collections/" ++ c

/-- Modelled from the spec: the singular bucket template /buckets/{b} of
spec 4.1. -/
def Paths.bucket (b : String) : String :=
  "/buckets/" ++ b

/-- The ancestor identifiers recoverable from a request path, keyed by the
plural segment that precedes each id in the canonical templates. -/
structure PathIds where
  buckets : Option String
  collections : Option String
  records : Option String

/-- Walk the slash-separated segments of a path: each occurrence of a plural
segment name followed by another segment records that segment as the
corresponding id. -/
def extractIdsAux : List String → PathIds → PathIds
  | [], acc => acc
  | "buckets" :: id :: rest, acc => extractIdsAux rest { acc with buckets := some id }
  | "collections" :: id :: rest, acc => extractIdsAux rest { acc with collections := some id }
  | "records" :: id :: rest, acc => extractIdsAux rest { acc with records := some id }
  | _ :: rest, acc => extractIdsAux rest acc

/-- Split a character list on the slash separator (the semantics of
splitting a path string on /). -/
def splitOnSlashAux : List Char → List Char → List String
  | [], acc => [String.mk acc.reverse]
  | c :: rest, acc =>
    if c = '/' then String.mk acc.reverse :: splitOnSlashAux rest []
    else splitOnSlashAux rest (c :: acc)

/-- The slash-separated segments of a path. -/
def pathSegments (path : String) : List String := splitOnSlashAux path.data []

/-- Modelled from the spec: extract_ids_from_path of utils.rs, which is not
under src/.  Spec 4.4: "ancestor ids (bucket id, and bucket+collection id)
are recovered by matching the envelope's path against the canonical
templates from 4.1". -/
def extract_ids_from_path (path : String) : PathIds :=
  extractIdsAux (pathSegments path) { buckets := none, collections := none, records := none }

/-- Modelled from the spec: format_permissions of utils.rs, which is not
under src/.  Spec 3: permissions map an action name to a set of principal
identifiers; a JSON array of principal strings becomes the list of those
strings, anything else the empty list. -/
def format_permissions : JsonValue → List String
  | .arr items => items.filterMap JsonValue.as_str
  | _ => []

/-- `BucketPermissions` of src/bucket.rs. -/
structure BucketPermissions where
  read : List String
  write : List String
  create_collection : List String
  create_group : List String

/-- The From JsonValue impl for BucketPermissions of src/bucket.rs lines
23-36. -/
def BucketPermissions.from_json (j : JsonValue) : BucketPermissions :=
  { read := format_permissions (j.index "read"),
    write := format_permissions (j.index "write"),
    create_collection := format_permissions (j.index "create:collection"),
    create_group := format_permissions (j.index "create:group") }

/-- `Bucket` of src/bucket.rs. -/
structure Bucket where
  client : KintoClient
  id : String
  timestamp : Option Nat
  data : Option JsonValue
  permissions : Option BucketPermissions

/-- `Bucket::new` of src/bucket.rs lines 61-66: a fresh in-memory bucket
with no timestamp, data or permissions. -/
def Bucket.new (client : KintoClient) (id : String) : Bucket :=
  { client := client, id := id, timestamp := none, data := none, permissions := none }

/-- The From ResponseWrapper impl for Bucket of src/bucket.rs lines 150-161.
The source unwraps `data.last_modified` as a number (a panic, modelled as
`none`, when the field is not a number; the subsequent Number-to-u64
conversion is the identity on the unsigned integral timestamps the server
produces) and renders `data.id` through Display. -/
def Bucket.from_response (w : ResponseWrapper) : Option Bucket :=
  match ((w.json.index "data").index "last_modified").as_u64 with
  | none => none
  | some ts =>
    some { client := w.client,
           data := some (w.json.index "data"),
           permissions := some (BucketPermissions.from_json (w.json.index "permissions")),
           id := ((w.json.index "data").index "id").display,
           timestamp := some ts }

/-- `Bucket::unwrap_response` of src/bucket.rs lines 114-116: the whole
value is replaced by the hydration of the envelope. -/
def Bucket.unwrap_response (_self : Bucket) (w : ResponseWrapper) : Option Bucket :=
  Bucket.from_response w

/-- `Collection` of src/collection.rs. -/
structure Collection where
  client : KintoClient
  bucket : Bucket
  id : String
  timestamp : Option Nat
  data : Option JsonValue
  permissions : Option JsonValue

/-- `Collection::new` of src/collection.rs lines 37-40: a fresh in-memory
collection with no timestamp, data or permissions. -/
def Collection.new (client : KintoClient) (bucket : Bucket) (id : String) : Collection :=
  { client := client, bucket := bucket, id := id,
    timestamp := none, data := none, permissions := none }

/-- `Collection::list_records_request` of src/collection.rs lines 67-71: a
GET request on the records-list path built from the parent bucket id and the
collection id. -/
def Collection.list_records_request (c : Collection) : RequestPreparer :=
  RequestPreparer.new c.client (Paths.records c.bucket.id c.id)

/-- The From ResponseWrapper impl for Collection of src/collection.rs lines
125-143: timestamp from `data.last_modified` (unwrap, modelled as `none` on
a non-number), parent bucket freshly constructed from the bucket id
extracted from the envelope's request path (unwrap, modelled as `none` when
the path holds no bucket id), data and permissions copied from the body,
id rendered from `data.id` through Display. -/
def Collection.from_response (w : ResponseWrapper) : Option Collection :=
  match ((w.json.index "data").index "last_modified").as_u64 with
  | none => none
  | some ts =>
    match (extract_ids_from_path w.path).buckets with
    | none => none
    | some bucket_id =>
      some { client := w.client,
             bucket := Bucket.new w.client bucket_id,
             data := some (w.json.index "data"),
             permissions := some (w.json.index "permissions"),
             id := ((w.json.index "data").index "id").display,
             timestamp := some ts }

/-- `Collection::unwrap_response` of src/collection.rs lines 89-91: the
whole value is replaced by the hydration of the envelope, the prior value
never read. -/
def Collection.unwrap_response (_self : Collection) (w : ResponseWrapper) : Option Collection :=
  Collection.from_response w

/-- `RecordPermissions` of src/record.rs. -/
structure RecordPermissions where
  read : Option (List String)
  write : Option (List String)

/-- The Default impl for RecordPermissions: both actions absent. -/
def RecordPermissions.default : RecordPermissions := { read := none, write := none }

/-- `Record` of src/record.rs: data, permissions, parent collection and an
optional explicit id.  A record holds no timestamp field; its timestamp is
computed from its data. -/
structure Record where
  data : Option JsonValue
  permissions : RecordPermissions
  collection : Collection
  id : Option String

/-- `Record::new` of src/record.rs lines 31-38: a fresh in-memory record
with no data and no id. -/
def Record.new (collection : Collection) : Record :=
  { collection := collection, data := none,
    permissions := RecordPermissions.default, id := none }

/-- `Record::new_by_id` of src/record.rs lines 41-48: a fresh in-memory
record with no data and a client-chosen id. -/
def Record.new_by_id (collection : Collection) (id : String) : Record :=
  { collection := collection, data := none,
    permissions := RecordPermissions.default, id := some id }

/-- `Record::get_data` of src/record.rs lines 68-70. -/
def Record.get_data (r : Record) : Option JsonValue := r.data

/-- `Record::get_id` of src/record.rs lines 81-93: the explicit id field
when set, else the string content of `data.id` when data is present, else
none. -/
def Record.get_id (r : Record) : Option String :=
  match r.id with
  | some id => some id
  | none =>
    match r.data with
    | some data => (data.index "id").as_str
    | none => none

/-- `Record::get_timestamp` of src/record.rs lines 95-105, translated
verbatim: it reads key "lat_modified" from the record's data (sic, the
source misspells last_modified). -/
def Record.get_timestamp (r : Record) : Option Nat :=
  match r.get_data with
  | some data =>
    match (data.index "lat_modified").as_u64 with
    | some ts => some ts
    | none => none
  | none => none

/-- Deserialization of RecordPermissions as `Record::unwrap_response` uses
it (serde from_value followed by unwrap): an object yields the optional
read/write principal lists, anything else panics, modelled as `none`. -/
def RecordPermissions.from_json : JsonValue → Option RecordPermissions
  | .obj fields =>
    some { read := match lookupField fields "read" with
             | .arr items => some (items.filterMap JsonValue.as_str)
             | _ => none,
           write := match lookupField fields "write" with
             | .arr items => some (items.filterMap JsonValue.as_str)
             | _ => none }
  | _ => none

/-- `Record::unwrap_response` of src/record.rs lines 57-62: data and
permissions are replaced from the body, and the id is replaced by the string
content of `data.id` (an unwrap, modelled as `none`, when that field is
absent or not a string); the request path is never consulted. -/
def Record.unwrap_response (r : Record) (w : ResponseWrapper) : Option Record :=
  match RecordPermissions.from_json (w.json.index "permissions") with
  | none => none
  | some perms =>
    match ((w.json.index "data").index "id").as_str with
    | none => none
    | some id =>
      some { r with data := some (w.json.index "data"),
                    permissions := perms,
                    id := some id }

/-- Slash-free strings: the identifier discipline under which the canonical
path templates are unambiguous. -/
abbrev slashFree (s : String) : Prop := '/' ∉ s.data

/-- A client fixture with no authentication, as utils::tests::setup_client
builds one against the local test server. -/
def exampleClient : KintoClient :=
  { server_url := "http://localhost:8888/v1", auth := none }

/-- A bare GET preparer on the bucket food path. -/
def examplePreparer : RequestPreparer :=
  RequestPreparer.new exampleClient "/buckets/food"

/-- A 404 response with a well-formed (empty object) body. -/
def exampleNotFound : HttpResponse :=
  { status := 404, headers := [], json := some JsonValue.new_object }

/-- A preparer whose request-specific headers collide with the client-level
authentication header on the same header name. -/
def exampleConflictPreparer : RequestPreparer :=
  { client := { server_url := "http://localhost:8888/v1",
                auth := some ("authorization", "client-token") },
    method := Method.get, path := "/buckets/food",
    headers := [("authorization", "request-token")],
    query := "", body := none }

/-- The bucket food of the repository's own test fixtures. -/
def exampleBucket : Bucket := Bucket.new exampleClient "food"

/-- The collection meat inside bucket food of the repository's own test
fixtures. -/
def exampleCollection : Collection := Collection.new exampleClient exampleBucket "meat"

/-- A persisted record body: id entrecote, a server timestamp. -/
def exampleRecordData : JsonValue :=
  .obj [("id", .str "entrecote"), ("last_modified", .num 1234)]

/-- A successful singular-collection envelope for /buckets/food/collections/meat. -/
def exampleEnvelope : ResponseWrapper :=
  { client := exampleClient, path := "/buckets/food/collections/meat",
    status := 200, headers := [],
    json := .obj [("data", .obj [("id", .str "meat"), ("last_modified", .num 1234)]),
                  ("permissions", .obj [])] }

/-- A successful singular-bucket envelope for /buckets/food. -/
def exampleBucketEnvelope : ResponseWrapper :=
  { client := exampleClient, path := "/buckets/food",
    status := 200, headers := [],
    json := .obj [("data", .obj [("id", .str "food"), ("last_modified", .num 99)]),
                  ("permissions", .obj [])] }

/-- A successful singular-bucket envelope whose data carries no id field. -/
def exampleNoIdEnvelope : ResponseWrapper :=
  { client := exampleClient, path := "/buckets/food",
    status := 200, headers := [],
    json := .obj [("data", .obj [("last_modified", .num 5)]),
                  ("permissions", .obj [])] }

/-- A fresh record under the meat collection. -/
def exampleRecord : Record := Record.new exampleCollection

/-- The bucket value the hydration of exampleBucketEnvelope produces. -/
def exampleHydratedBucket : Bucket :=
  { client := exampleClient, id := "food", timestamp := some 99,
    data := some (.obj [("id", .str "food"), ("last_modified", .num 99)]),
    permissions := some { read := [], write := [],
                          create_collection := [], create_group := [] } }

/-- The collection value the hydration of exampleEnvelope produces: note the
parent bucket is rebuilt fresh from the path's bucket id. -/
def exampleHydratedCollection : Collection :=
  { client := exampleClient, bucket := Bucket.new exampleClient "food",
    id := "meat", timestamp := some 1234,
    data := some (.obj [("id", .str "meat"), ("last_modified", .num 1234)]),
    permissions := some (.obj []) }

/-- A successful singular-record envelope for the record entrecote, whose
body data carries the server timestamp last_modified 1234. -/
def exampleRecordEnvelope : ResponseWrapper :=
  { client := exampleClient, path := "/buckets/food/collections/meat/records/entrecote",
    status := 200, headers := [],
    json := .obj [("data", exampleRecordData), ("permissions", .obj [])] }

/-- The record value Record::unwrap_response produces from
exampleRecordEnvelope: server-observed data, id read out of the body. -/
def exampleHydratedRecord : Record :=
  { data := some exampleRecordData,
    permissions := { read := none, write := none },
    collection := exampleCollection, id := some "entrecote" }

/-- Reading back through an insert: the inserted key reads the new value,
every other key reads as before. -/
theorem lookupField_insertField (fs : List (String × JsonValue)) (key k2 : String)
    (v : JsonValue) :
    lookupField (insertField fs key v) k2 = if key = k2 then v else lookupField fs k2 := by
  induction fs with
  | nil =>
    by_cases h : key = k2 <;> simp [insertField, lookupField, h]
  | cons hd tl ih =>
    obtain ⟨k0, v0⟩ := hd
    by_cases h : k0 = key
    · subst h
      by_cases h2 : k0 = k2 <;> simp [insertField, lookupField, h2]
    · by_cases h2 : k0 = k2
      · subst h2
        have hne : ¬ key = k0 := fun e => h e.symm
        simp [insertField, h, lookupField, hne]
      · simp [insertField, h, lookupField, h2, ih]

/-- Reading back through index assignment: the assigned key reads the new
value, every other key reads as before (JSON null on non-objects). -/
theorem index_setIndex (j : JsonValue) (key k2 : String) (v : JsonValue) :
    (j.setIndex key v).index k2 = if key = k2 then v else j.index k2 := by
  cases j <;>
    simp [JsonValue.setIndex, JsonValue.index, lookupField_insertField, lookupField]

/-- Reading back through hyper's set: the set name reads the new value,
every other name reads as before. -/
theorem headersGet_headersSet (hs : List Header) (h : Header) (key : String) :
    headersGet (headersSet hs h) key
      = if h.1 = key then some h.2 else headersGet hs key := by
  obtain ⟨hn, hv⟩ := h
  induction hs with
  | nil => simp [headersSet, headersGet]
  | cons hd tl ih =>
    obtain ⟨n, v⟩ := hd
    by_cases e : n = hn
    · subst e
      by_cases e2 : n = key <;> simp [headersSet, headersGet, e2]
    · by_cases e2 : n = key
      · subst e2
        have hne : ¬ hn = n := fun x => e x.symm
        simp [headersSet, headersGet, e, hne]
      · simp [headersSet, headersGet, e, e2, ih]

/-- C1 (counterexample): the claim that a transport failure and a generic
non-2xx response are classified as two distinct error kinds, the latter
carrying the status, is false on the code: at a concrete dispatch, a failed
HTTP call and a 404 response both classify as the very same HyperError
value, which carries nothing. -/
theorem send_error_kind_collapse_cex :
    KintoRequest.send examplePreparer none = .error KintoError.HyperError ∧
    KintoRequest.send examplePreparer (some exampleNotFound)
      = .error KintoError.HyperError :=
  ⟨rfl, rfl⟩

/-- C1 (amended): for every dispatched request, a transport failure and any
non-2xx response other than 304 and 412 are classified as one and the same
error kind, HyperError, which carries no HTTP status. -/
theorem send_error_kind_collapse (p : RequestPreparer) (r : HttpResponse)
    (h304 : r.status ≠ 304) (h412 : r.status ≠ 412)
    (hfail : statusIsSuccess r.status = false) :
    KintoRequest.send p none = .error KintoError.HyperError ∧
    KintoRequest.send p (some r) = .error KintoError.HyperError := by
  refine ⟨rfl, ?_⟩
  simp [KintoRequest.send, h304, h412, hfail]

/-- Witness for C1 at a concrete preparer and a concrete 404 response. -/
theorem send_error_kind_collapse_witness :
    KintoRequest.send examplePreparer none = .error KintoError.HyperError ∧
    KintoRequest.send examplePreparer (some exampleNotFound)
      = .error KintoError.HyperError :=
  send_error_kind_collapse examplePreparer exampleNotFound
    (by decide) (by decide) (by decide)

/-- C2: for a dispatched request whose HTTP call succeeds with status 304 or
412, the dispatcher classifies 304 as NotModified and 412 as
PreconditionFailed before the generic non-2xx check: the outcome never
depends on the response body (not read, not parsed), and is never the
generic HyperError nor a body-parse JsonError. -/
theorem send_conditional_precedence (p : RequestPreparer) (r : HttpResponse)
    (h : r.status = 304 ∨ r.status = 412) :
    (r.status = 304 → KintoRequest.send p (some r) = .error KintoError.NotModified) ∧
    (r.status = 412 → KintoRequest.send p (some r) = .error KintoError.PreconditionError) ∧
    (∀ j, KintoRequest.send p (some { r with json := j }) = KintoRequest.send p (some r)) ∧
    KintoRequest.send p (some r) ≠ .error KintoError.HyperError ∧
    KintoRequest.send p (some r) ≠ .error KintoError.JsonError := by
  rcases h with h | h <;>
    refine ⟨?_, ?_, ?_, ?_, ?_⟩ <;>
      simp [KintoRequest.send, h]

/-- Witness for C2 at a concrete 304 response carrying an unparseable body. -/
theorem send_conditional_precedence_witness :
    KintoRequest.send examplePreparer (some { status := 304, headers := [], json := none })
      = .error KintoError.NotModified :=
  (send_conditional_precedence examplePreparer
    { status := 304, headers := [], json := none } (Or.inl rfl)).1 rfl

/-- C3 (counterexample): the claim that the request-specific header wins a
conflict with the client-level authentication header is false on the code:
with both defining the authorization header, the value actually sent is the
client's, not the request's. -/
theorem sent_headers_merge_cex :
    headersGet (sentHeaders exampleConflictPreparer) "authorization"
      = some "client-token" ∧
    headersGet (sentHeaders exampleConflictPreparer) "authorization"
      ≠ some "request-token" :=
  ⟨rfl, by decide⟩

/-- C3 (amended): the headers sent are the merge of the request-specific
headers and the client-level authentication header, and on a conflict the
client-level authentication header's value wins, the dispatcher setting it
last; without client authentication the request headers pass unchanged. -/
theorem sent_headers_merge (p q : RequestPreparer) (name value : String)
    (hp : p.client.auth = some (name, value)) (hq : q.client.auth = none) :
    headersGet (sentHeaders p) name = some value ∧
    (∀ other, other ≠ name →
      headersGet (sentHeaders p) other = headersGet p.headers other) ∧
    sentHeaders q = q.headers := by
  refine ⟨?_, ?_, ?_⟩
  · simp [sentHeaders, hp, headersGet_headersSet]
  · intro other hother
    simp [sentHeaders, hp, headersGet_headersSet, Ne.symm hother]
  · simp [sentHeaders, hq]

/-- Witness for C3 at the conflicting preparer and the bare one. -/
theorem sent_headers_merge_witness :
    headersGet (sentHeaders exampleConflictPreparer) "authorization"
      = some "client-token" ∧
    (∀ other, other ≠ "authorization" →
      headersGet (sentHeaders exampleConflictPreparer) other
        = headersGet exampleConflictPreparer.headers other) ∧
    sentHeaders examplePreparer = examplePreparer.headers :=
  sent_headers_merge exampleConflictPreparer examplePreparer
    "authorization" "client-token" rfl rfl

/-- C6: each payload setter is a no-op on an absent value, and attaching
data then permissions (or permissions then data) yields a body holding the
given data under key data and the given permissions under key permissions,
neither setter clobbering the value placed by the other. -/
theorem payload_setters_independent (p : RequestPreparer) (d perms : JsonValue) :
    PayloadedEndpoint.data p none = p ∧
    PayloadedEndpoint.permissions p none = p ∧
    (∃ body, (PayloadedEndpoint.permissions (PayloadedEndpoint.data p (some d)) (some perms)).body
        = some body ∧
      body.index "data" = d ∧ body.index "permissions" = perms) ∧
    (∃ body, (PayloadedEndpoint.data (PayloadedEndpoint.permissions p (some perms)) (some d)).body
        = some body ∧
      body.index "data" = d ∧ body.index "permissions" = perms) := by
  refine ⟨rfl, rfl, ⟨_, rfl, ?_, ?_⟩, ⟨_, rfl, ?_, ?_⟩⟩ <;>
    simp [PayloadedEndpoint.data, PayloadedEndpoint.permissions, index_setIndex]

/-- C4: the claim is right and the code wrong: Record::get_timestamp reads
key "lat_modified", a misspelling of the last_modified field the spec, the
repository's own tests and the bucket/collection hydrations all use, so on
a record whose data carries the numeric last_modified 1234 it returns none
instead of some 1234. -/
theorem record_get_timestamp_typo :
    (exampleRecordData.index "last_modified").as_u64 = some 1234 ∧
    Record.get_timestamp { exampleRecord with data := some exampleRecordData } = none :=
  ⟨rfl, rfl⟩

/-- C5 (counterexample): the claim that a hydrated resource's id falls back
to the final segment of the request path when data.id is absent is false on
the code: hydrating a bucket envelope for path /buckets/food whose data has
no id field yields the id null (the Display rendering of the missing field),
not food. -/
theorem hydrated_id_fallback_cex :
    Option.map Bucket.id (Bucket.from_response exampleNoIdEnvelope) = some "null" ∧
    Option.map Bucket.id (Bucket.from_response exampleNoIdEnvelope) ≠ some "food" :=
  ⟨rfl, by decide⟩

/-- C5 (amended): a hydrated resource's id is the Display rendering of the
body's data.id: when that field is a string the id equals it exactly, the
request path never being consulted (hydrating the same body under any other
path yields the same id); Record::unwrap_response likewise takes the id from
data.id, panicking rather than consulting the path when the field is absent. -/
theorem hydrated_id_from_body (w : ResponseWrapper) (b : Bucket) (s newPath : String)
    (hs : (w.json.index "data").index "id" = JsonValue.str s)
    (hb : Bucket.from_response w = some b) :
    b.id = s ∧
    Option.map Bucket.id (Bucket.from_response { w with path := newPath }) = some s ∧
    (∀ r rec, Record.unwrap_response r w = some rec → rec.id = some s) := by
  cases hts : ((w.json.index "data").index "last_modified").as_u64 with
  | none => simp [Bucket.from_response, hts] at hb
  | some ts =>
    simp only [Bucket.from_response, hts, Option.some.injEq] at hb
    subst hb
    refine ⟨?_, ?_, ?_⟩
    · simp [hs, JsonValue.display]
    · simp [Bucket.from_response, hts, hs, JsonValue.display]
    · intro r rec h
      cases hp : RecordPermissions.from_json (w.json.index "permissions") with
      | none => simp [Record.unwrap_response, hp] at h
      | some perms =>
        simp only [Record.unwrap_response, hp, hs, JsonValue.as_str,
                   Option.some.injEq] at h
        subst h
        rfl

/-- Witness for C5 at the concrete bucket envelope for /buckets/food, whose
body carries data.id food, rehydrated under an unrelated path. -/
theorem hydrated_id_from_body_witness :
    exampleHydratedBucket.id = "food" ∧
    Option.map Bucket.id
        (Bucket.from_response { exampleBucketEnvelope with path := "/some/other/path" })
      = some "food" ∧
    (∀ r rec, Record.unwrap_response r exampleBucketEnvelope = some rec →
      rec.id = some "food") :=
  hydrated_id_from_body exampleBucketEnvelope exampleHydratedBucket
    "food" "/some/other/path" rfl rfl

/-- C8: the claim is right and the code wrong on the record half of its iff:
every freshly constructed resource (Bucket::new, Collection::new,
Record::new, Record::new_by_id) indeed has no data and no timestamp, and a
hydrated bucket or collection carries a timestamp together with its
server-observed data — but a record hydrated by Record::unwrap_response
from a successful envelope, whose data is server-observed and carries the
numeric last_modified 1234, still computes timestamp none, because
Record::get_timestamp reads the misspelled key lat_modified. -/
theorem record_timestamp_iff_bug :
    ((Bucket.new exampleClient "x").data = none ∧
     (Bucket.new exampleClient "x").timestamp = none) ∧
    ((Collection.new exampleClient exampleBucket "x").data = none ∧
     (Collection.new exampleClient exampleBucket "x").timestamp = none) ∧
    ((Record.new exampleCollection).data = none ∧
     Record.get_timestamp (Record.new exampleCollection) = none) ∧
    ((Record.new_by_id exampleCollection "x").data = none ∧
     Record.get_timestamp (Record.new_by_id exampleCollection "x") = none) ∧
    (Bucket.from_response exampleBucketEnvelope = some exampleHydratedBucket ∧
     exampleHydratedBucket.timestamp.isSome ∧ exampleHydratedBucket.data.isSome) ∧
    (Collection.from_response exampleEnvelope = some exampleHydratedCollection ∧
     exampleHydratedCollection.timestamp.isSome ∧ exampleHydratedCollection.data.isSome) ∧
    (Record.unwrap_response exampleRecord exampleRecordEnvelope
        = some exampleHydratedRecord ∧
     exampleHydratedRecord.data = some exampleRecordData ∧
     (exampleRecordData.index "last_modified").as_u64 = some 1234 ∧
     Record.get_timestamp exampleHydratedRecord = none) :=
  ⟨⟨rfl, rfl⟩, ⟨rfl, rfl⟩, ⟨rfl, rfl⟩, ⟨rfl, rfl⟩,
   ⟨rfl, rfl, rfl⟩, ⟨rfl, rfl, rfl⟩, ⟨rfl, rfl, rfl, rfl⟩⟩

/-- C9: hydrating a successful response replaces the whole collection value
independently of the prior one, and the new parent bucket is freshly built
from just the bucket id recovered from the envelope's path: its data,
timestamp and permissions are all none, whatever the prior parent held. -/
theorem collection_hydration_replaces_parent (s1 s2 : Collection) (w : ResponseWrapper)
    (c : Collection) (h : Collection.unwrap_response s1 w = some c) :
    Collection.unwrap_response s2 w = some c ∧
    (∃ bid, (extract_ids_from_path w.path).buckets = some bid ∧
      c.bucket = Bucket.new w.client bid) ∧
    c.bucket.data = none ∧ c.bucket.timestamp = none ∧ c.bucket.permissions = none := by
  cases hts : ((w.json.index "data").index "last_modified").as_u64 with
  | none => simp [Collection.unwrap_response, Collection.from_response, hts] at h
  | some ts =>
    cases hbid : (extract_ids_from_path w.path).buckets with
    | none => simp [Collection.unwrap_response, Collection.from_response, hts, hbid] at h
    | some bid =>
      simp only [Collection.unwrap_response, Collection.from_response, hts, hbid,
                 Option.some.injEq] at h
      subst h
      refine ⟨?_, ⟨bid, ?_, rfl⟩, rfl, rfl, rfl⟩
      · simp [Collection.unwrap_response, Collection.from_response, hts, hbid]
      · rfl

/-- Witness for C9: two different prior collections (one fresh, one holding
stale data, a stale timestamp and stale permissions on itself) hydrate the
concrete envelope to the very same value, whose parent bucket is fresh. -/
theorem collection_hydration_replaces_parent_witness :
    Collection.unwrap_response
        { exampleCollection with data := some JsonValue.new_object,
                                 timestamp := some 7,
                                 permissions := some JsonValue.new_object }
        exampleEnvelope
      = some exampleHydratedCollection ∧
    (∃ bid, (extract_ids_from_path exampleEnvelope.path).buckets = some bid ∧
      exampleHydratedCollection.bucket = Bucket.new exampleEnvelope.client bid) ∧
    exampleHydratedCollection.bucket.data = none ∧
    exampleHydratedCollection.bucket.timestamp = none ∧
    exampleHydratedCollection.bucket.permissions = none :=
  collection_hydration_replaces_parent exampleCollection
    { exampleCollection with data := some JsonValue.new_object,
                             timestamp := some 7,
                             permissions := some JsonValue.new_object }
    exampleEnvelope exampleHydratedCollection rfl

/-- C10: Record::get_id returns the explicit id field when set, otherwise
the string content of data.id when data is present, otherwise none; it is a
total function of those two fields alone. -/
theorem record_get_id_cascade (r : Record) :
    (∀ i, r.id = some i → r.get_id = some i) ∧
    (r.id = none → ∀ d, r.data = some d → r.get_id = (d.index "id").as_str) ∧
    (r.id = none → r.data = none → r.get_id = none) := by
  refine ⟨?_, ?_, ?_⟩
  · intro i hi
    simp [Record.get_id, hi]
  · intro hi d hd
    simp [Record.get_id, hi, hd]
  · intro hi hd
    simp [Record.get_id, hi, hd]

/-- Witness for C10 on the three concrete shapes: explicit id, id read out
of the data, and the bare record. -/
theorem record_get_id_cascade_witness :
    Record.get_id { exampleRecord with id := some "explicit" } = some "explicit" ∧
    Record.get_id { exampleRecord with data := some exampleRecordData } = some "entrecote" ∧
    Record.get_id exampleRecord = none := by
  refine ⟨(record_get_id_cascade _).1 "explicit" rfl, ?_,
          (record_get_id_cascade _).2.2 rfl rfl⟩
  have h := (record_get_id_cascade { exampleRecord with data := some exampleRecordData }).2.1
    rfl exampleRecordData rfl
  rw [h]
  rfl

/-- Unambiguous split at a separator character: when neither prefix contains
the separator, equal concatenations force equal prefixes and equal tails. -/
theorem append_cons_inj {d : Char} {u1 : List Char} {u2 v1 v2 : List Char}
    (h1 : d ∉ u1) (h2 : d ∉ u2)
    (heq : u1 ++ d :: v1 = u2 ++ d :: v2) : u1 = u2 ∧ v1 = v2 := by
  induction u1 generalizing u2 with
  | nil =>
    cases u2 with
    | nil => simpa using heq
    | cons b t =>
      simp only [List.nil_append, List.cons_append, List.cons.injEq] at heq
      exact absurd (heq.1 ▸ List.mem_cons_self b t) h2
  | cons a t ih =>
    cases u2 with
    | nil =>
      simp only [List.cons_append, List.nil_append, List.cons.injEq] at heq
      exact absurd (heq.1.symm ▸ List.mem_cons_self a t) h1
    | cons b t2 =>
      simp only [List.cons_append, List.cons.injEq] at heq
      obtain ⟨rfl, heq2⟩ := heq
      have h1t : d ∉ t := fun hm => h1 (List.mem_cons_of_mem _ hm)
      have h2t : d ∉ t2 := fun hm => h2 (List.mem_cons_of_mem _ hm)
      obtain ⟨rfl, hv⟩ := ih h1t h2t heq2
      exact ⟨rfl, hv⟩

/-- C7 (counterexample): over arbitrary id strings the records path builder
is not injective: two distinct (bucket id, collection id) tuples, one of
whose components embeds a /collections/ separator, build the very same
path. -/
theorem records_path_collision_cex :
    Paths.records "a" "b/collections/c" = Paths.records "a/collections/b" "c" ∧
    ¬ (("a" : String) = "a/collections/b" ∧ ("b/collections/c" : String) = "c") :=
  ⟨rfl, by decide⟩

/-- C7 (amended): restricted to slash-free identifiers the records path
builder is injective, and the concrete round trip of the spec holds: the
collection-records-list path for bucket food and collection meat is
/buckets/food/collections/meat/records, and extracting ancestor ids from an
envelope path equal to that string recovers bucket id food and collection
id meat exactly. -/
theorem records_path_injective_roundtrip (b1 c1 b2 c2 : String)
    (hb1 : slashFree b1) (hc1 : slashFree c1) (hb2 : slashFree b2) (hc2 : slashFree c2)
    (heq : Paths.records b1 c1 = Paths.records b2 c2) :
    (b1 = b2 ∧ c1 = c2) ∧
    Paths.records "food" "meat" = "/buckets/food/collections/meat/records" ∧
    (extract_ids_from_path "/buckets/food/collections/meat/records").buckets
      = some "food" ∧
    (extract_ids_from_path "/buckets/food/collections/meat/records").collections
      = some "meat" := by
  refine ⟨?_, rfl, rfl, rfl⟩
  have hd := congrArg String.data heq
  simp only [Paths.records, String.data_append, List.append_assoc] at hd
  have hd2 := List.append_cancel_left hd
  simp only [List.cons_append, List.nil_append] at hd2
  obtain ⟨hb, hrest⟩ := append_cons_inj hb1 hb2 hd2
  simp only [List.cons.injEq, true_and] at hrest
  obtain ⟨hc, -⟩ := append_cons_inj hc1 hc2 hrest
  exact ⟨String.ext hb, String.ext hc⟩

/-- Witness for C7 at the spec's own instance: bucket food, collection
meat. -/
theorem records_path_injective_roundtrip_witness :
    (("food" : String) = "food" ∧ ("meat" : String) = "meat") ∧
    Paths.records "food" "meat" = "/buckets/food/collections/meat/records" ∧
    (extract_ids_from_path "/buckets/food/collections/meat/records").buckets
      = some "food" ∧
    (extract_ids_from_path "/buckets/food/collections/meat/records").collections
      = some "meat" :=
  records_path_injective_roundtrip "food" "meat" "food" "meat"
    (by decide) (by decide) (by decide) (by decide) rfl
